import Mathlib

set_option maxHeartbeats 1000000

/-! Shallow embedding of the automated video-publishing pipeline of this
    repository (backend/publishapp/views.py together with
    backend/common/cos_utils.py).  Python strings are modelled as lists of
    characters, provider JSON payloads as the inductive `JVal`, Python
    exceptions as the inductive `PyExc`, and every external HTTP
    interaction as an oracle value supplied to the embedded function. -/

/-- Python strings, modelled as lists of characters. -/
abbrev Str := List Char

/-- Shorthand turning a Lean string literal into `Str`. -/
def S (s : String) : Str := s.data

/-- Python `str.strip()`: drop whitespace from both ends. -/
def pyStrip (s : Str) : Str :=
  ((s.dropWhile Char.isWhitespace).reverse.dropWhile Char.isWhitespace).reverse

/-- Python `needle in hay` on strings: substring containment. -/
def containsSub (needle hay : Str) : Bool := decide (needle <:+: hay)

/-- Python `str.lower()` (the pipeline only lowercases provider status
    tokens and URLs, which are ASCII). -/
def toLowerStr (s : Str) : Str := s.map Char.toLower

/-- Python `str.isdigit()` for ASCII digit strings (`"".isdigit()` is false). -/
def isDigitStr (s : Str) : Bool := !s.isEmpty && s.all Char.isDigit

/-- Python `int(...)` applied to a digit string. -/
def digitsToNat (s : Str) : Nat :=
  s.foldl (fun acc c => acc * 10 + (c.toNat - Char.toNat '0')) 0

/-- Decimal rendering of a natural number, as interpolated into f-strings. -/
def natToStr (n : Nat) : Str := (toString n).data

/-- Decimal rendering of an integer (Python `str` on `int`). -/
def intToStr (n : Int) : Str := (toString n).data

/-- Python exceptions distinguished by the pipeline.  `sensitive` is the
    distinguished `SensitiveContentError` (a `RuntimeError` subclass) from
    views.py line 47; `runtime` is any other `RuntimeError`; the remaining
    constructors model builtin exception classes and transport-level
    `requests` exceptions (timeouts, connection errors). -/
inductive PyExc where
  | sensitive (msg : Str)
  | runtime (msg : Str)
  | attrError
  | indexError
  | typeError
  | jsonDecodeError
  | netError (msg : Str)
  deriving DecidableEq, Repr

/-- Python `str(exc)`: the message text used when an exception is converted
    into an error result by `_generate_single_video`. -/
def PyExc.message : PyExc → Str
  | .sensitive m => m
  | .runtime m => m
  | .attrError => S "attribute error"
  | .indexError => S "list index out of range"
  | .typeError => S "type error"
  | .jsonDecodeError => S "Expecting value: line 1 column 1 (char 0)"
  | .netError m => m

/-- JSON-like values returned by `resp.json()` on provider responses. -/
inductive JVal where
  | null
  | jbool (b : Bool)
  | jnum (n : Int)
  | jstr (s : Str)
  | jarr (xs : List JVal)
  | jobj (fields : List (Str × JVal))

/-- Python truthiness of a JSON value (`None`, `False`, `0`, `""`, `[]`,
    `{}` are falsy). -/
def JVal.truthy : JVal → Bool
  | .null => false
  | .jbool b => b
  | .jnum n => n != 0
  | .jstr s => !s.isEmpty
  | .jarr xs => !xs.isEmpty
  | .jobj fs => !fs.isEmpty

/-- Python `a or b` on JSON values: the first truthy operand. -/
def pyOr (a b : JVal) : JVal := if a.truthy then a else b

/-- Python `dict.get(key, default)`.  Calling `.get` on a non-dict value
    raises `AttributeError`, exactly as in CPython. -/
def JVal.getD (v : JVal) (k : Str) (d : JVal) : Except PyExc JVal :=
  match v with
  | .jobj fs => .ok ((fs.lookup k).getD d)
  | _ => .error .attrError

/-- Python `x[0]`: first element of a sequence.  Empty sequences raise
    `IndexError`; dicts raise `KeyError`-like failure (modelled as
    `attrError` is wrong, so we use `typeError` for non-sequences and
    `indexError` for empty sequences, matching which CPython class is not
    a `RuntimeError`). -/
def JVal.index0 : JVal → Except PyExc JVal
  | .jarr (x :: _) => .ok x
  | .jarr [] => .error .indexError
  | .jstr (c :: _) => .ok (.jstr [c])
  | .jstr [] => .error .indexError
  | _ => .error .typeError

/-- The single-quote character used by Python `repr`. -/
def squote : Char := Char.ofNat 39

mutual

/-- Python `repr` of a JSON value (strings quoted; escape sequences for
    quotes and backslashes are not reproduced, which the pipeline never
    depends on). -/
def pyRepr : JVal → Str
  | .null => S "None"
  | .jbool true => S "True"
  | .jbool false => S "False"
  | .jnum n => intToStr n
  | .jstr s => squote :: (s ++ [squote])
  | .jarr xs => '[' :: (pyReprList xs ++ [']'])
  | .jobj fs => '{' :: (pyReprFields fs ++ ['}'])

def pyReprList : List JVal → Str
  | [] => []
  | [x] => pyRepr x
  | x :: y :: xs => pyRepr x ++ S ", " ++ pyReprList (y :: xs)

def pyReprFields : List (Str × JVal) → Str
  | [] => []
  | [(k, v)] => squote :: (k ++ [squote]) ++ S ": " ++ pyRepr v
  | (k, v) :: f :: fs =>
      squote :: (k ++ [squote]) ++ S ": " ++ pyRepr v ++ S ", " ++ pyReprFields (f :: fs)

end

/-- Python `str` of a JSON value: like `repr` except a top-level string is
    rendered bare. -/
def pyStr : JVal → Str
  | .jstr s => s
  | v => pyRepr v

mutual

/-- `json.dumps(payload, ensure_ascii=False)` with CPython's default
    separators, used for the truncated failure payload in
    `_wait_for_video_url`. -/
def jdumps : JVal → Str
  | .null => S "null"
  | .jbool true => S "true"
  | .jbool false => S "false"
  | .jnum n => intToStr n
  | .jstr s => '"' :: (s ++ ['"'])
  | .jarr xs => '[' :: (jdumpsList xs ++ [']'])
  | .jobj fs => '{' :: (jdumpsFields fs ++ ['}'])

def jdumpsList : List JVal → Str
  | [] => []
  | [x] => jdumps x
  | x :: y :: xs => jdumps x ++ S ", " ++ jdumpsList (y :: xs)

def jdumpsFields : List (Str × JVal) → Str
  | [] => []
  | [(k, v)] => '"' :: (k ++ ['"']) ++ S ": " ++ jdumps v
  | (k, v) :: f :: fs =>
      '"' :: (k ++ ['"']) ++ S ": " ++ jdumps v ++ S ", " ++ jdumpsFields (f :: fs)

end

/-- An HTTP response as seen through `requests`: status code, raw text,
    and the JSON parse of the body (`none` when `resp.json()` would raise
    a decode error). -/
structure HttpResp where
  status : Nat
  text : Str
  json : Option JVal

/-- `resp.json()`: raises a decode error when the body is not JSON. -/
def jsonOf (r : HttpResp) : Except PyExc JVal :=
  match r.json with
  | some j => .ok j
  | none => .error .jsonDecodeError

/-- Environment-derived module configuration of views.py lines 18-44. -/
structure Config where
  doubaoApiKey : Str
  videoApiKey : Str
  videoModel : Str
  videoRatio : Str
  videoWatermark : Bool
  videoResolution : Str
  useCos : Bool
  maxPollAttempts : Nat
  maxKeywordsPerBatch : Nat

/-- Module-level initialisation of `VIDEO_RESOLUTION` (views.py line 43):
    `os.environ.get("PUBLISH_VIDEO_RESOLUTION", "1080p").strip() or "1080p"`. -/
def mkVideoResolution (envVal : Str) : Str :=
  let s := pyStrip envVal
  if s.isEmpty then S "1080p" else s

/-- The shared response-extraction chain of `_generate_copy`
    (views.py lines 160-166) and `_rewrite_copy_for_safety` (lines 212-218):
    `payload.get("choices", [{}])[0].get("message", {}).get("content", "")`
    followed by `str(text or "").strip()`. -/
def extractChatContent (j : JVal) : Except PyExc Str := do
  let choices ← j.getD (S "choices") (.jarr [.jobj []])
  let c0 ← choices.index0
  let msg ← c0.getD (S "message") (.jobj [])
  let content ← msg.getD (S "content") (.jstr [])
  pure (pyStrip (pyStr (pyOr content (.jstr []))))

/-- `_generate_copy` (views.py lines 126-169), with the provider response
    supplied as an oracle (the request payload does not influence which
    response the oracle yields). -/
def generateCopy (cfg : Config) (resp : Except PyExc HttpResp) (_keyword : Str) :
    Except PyExc Str :=
  if cfg.doubaoApiKey.isEmpty then .error (.runtime (S "未配置 DOUBAO_API_KEY"))
  else do
    let r ← resp
    if r.status ≠ 200 then
      .error (.runtime (S "文案生成失败: HTTP " ++ natToStr r.status))
    else do
      let j ← jsonOf r
      let finalText ← extractChatContent j
      if finalText.isEmpty then .error (.runtime (S "文案生成为空"))
      else pure finalText

/-- The deterministic generic fallback copy of `_rewrite_copy_for_safety`
    (views.py lines 175-178, repeated at lines 208-211 and 219-222). -/
def fallbackCopy (keyword : Str) : Str :=
  S "二次元日漫风格，围绕“" ++ keyword ++
    S "”的幽默夸张短片，主角为二次元拟人化角色，在贴合热点的场景里做出反差搞笑动作，电影级运镜，节奏明快，16:9，1080p。"

/-- `_rewrite_copy_for_safety` (views.py lines 172-222), with the provider
    response supplied as an oracle. -/
def rewriteCopyForSafety (cfg : Config) (resp : Except PyExc HttpResp)
    (keyword _copyText : Str) : Except PyExc Str :=
  if cfg.doubaoApiKey.isEmpty then .ok (fallbackCopy keyword)
  else do
    let r ← resp
    if r.status ≠ 200 then .ok (fallbackCopy keyword)
    else do
      let j ← jsonOf r
      let safeText ← extractChatContent j
      pure (if safeText.isEmpty then fallbackCopy keyword else safeText)

/-- The style-reinforcement suffix of `_ensure_anime_style`
    (views.py line 227). -/
def styleHint : Str := S "二次元日漫风格，高饱和动漫光效，幽默夸张喜剧表达。"

/-- `_ensure_anime_style` (views.py lines 225-232). -/
def ensureAnimeStyle (copyText : Str) : Str :=
  let text := pyStrip copyText
  if text.isEmpty then styleHint
  else if containsSub (S "二次元") text || containsSub (S "日漫") text ||
      containsSub (S "动漫") text then text
  else text ++ (' ' :: styleHint)

/-- Python `str.split()` with no separator: maximal runs of
    non-whitespace characters. -/
def pySplitWs (s : Str) : List Str :=
  let step := fun (acc : List Str × Str) c =>
    if Char.isWhitespace c then
      if acc.2.isEmpty then (acc.1, []) else (acc.1 ++ [acc.2], [])
    else (acc.1, acc.2 ++ [c])
  let r := s.foldl step ([], [])
  if r.2.isEmpty then r.1 else r.1 ++ [r.2]

/-- The per-character effect of the chained `str.replace` calls of
    `_safe_filename` (views.py lines 119-121): each unsafe character
    becomes an underscore. -/
def replaceUnsafe (c : Char) : Char :=
  if c = '/' || c = '\\' || c = ':' || c = '*' || c = '?' || c = '"' ||
      c = '<' || c = '>' || c = '|' then '_' else c

/-- `_safe_filename` (views.py lines 115-123). -/
def safeFilename (keyword : Str) : Str :=
  let text := pyStrip keyword
  if text.isEmpty then S "hot-video"
  else
    let text := text.map replaceUnsafe
    let text := List.intercalate (S " ") (pySplitWs text)
    let text := text.take 80
    if text.isEmpty then S "hot-video" else text

/-- The provider task-creation payload built by `_submit_video_task`
    (views.py lines 256-265), including the conditionally attached
    `resolution` field. -/
def submitPayload (cfg : Config) (copyText : Str) : JVal :=
  .jobj
    ([(S "model", .jstr cfg.videoModel),
      (S "content",
        .jarr [.jobj [(S "type", .jstr (S "text")),
                      (S "text", .jstr (ensureAnimeStyle copyText))]]),
      (S "ratio", .jstr cfg.videoRatio),
      (S "duration", .jnum 5),
      (S "watermark", .jbool cfg.videoWatermark)] ++
     (if cfg.videoResolution.isEmpty then []
      else [(S "resolution", .jstr cfg.videoResolution)]))

/-- The `try`-guarded error-field extraction of `_submit_video_task`
    (views.py lines 278-292): any exception inside the block yields
    `("", err_text)`. -/
def parseSubmitErr (r : HttpResp) (errText : Str) : JVal × JVal :=
  match (do
      let j ← jsonOf r
      let errObj ← j.getD (S "error") (.jobj [])
      let codeV ← errObj.getD (S "code") .null
      let topCode ← j.getD (S "code") .null
      let msgV ← errObj.getD (S "message") .null
      let topMsg ← j.getD (S "message") .null
      pure (pyOr (pyOr codeV topCode) (.jstr []),
            pyOr (pyOr msgV topMsg) (.jstr errText))
      : Except PyExc (JVal × JVal)) with
  | .ok p => p
  | .error _ => (.jstr [], .jstr errText)

/-- The sensitive-content signature of views.py line 293. -/
def sensitiveSig : Str := S "InputTextSensitiveContentDetected"

/-- Python `err_code == "InputTextSensitiveContentDetected"`: equality with
    a non-string value is `False`. -/
def eqSensitiveSig (c : JVal) : Bool :=
  match c with
  | .jstr s => s == sensitiveSig
  | _ => false

/-- `_submit_video_task` (views.py lines 253-300), with the provider
    response supplied as an oracle. -/
def submitVideoTask (cfg : Config) (resp : Except PyExc HttpResp) (_copyText : Str) :
    Except PyExc Str :=
  if cfg.videoApiKey.isEmpty then
    .error (.runtime (S "未配置 PUBLISH_VIDEO_API_KEY（或 DOUBAO_API_KEY）"))
  else do
    let r ← resp
    if r.status ≠ 200 then
      let errText := r.text.take 500
      let p := parseSubmitErr r errText
      if eqSensitiveSig p.1 then
        .error (.sensitive (S "视频文案触发风控: " ++ pyStr p.2))
      else
        .error (.runtime (S "视频任务创建失败: HTTP " ++ natToStr r.status ++
          S ", " ++ pyStr p.2))
    else do
      let j ← jsonOf r
      let idV ← j.getD (S "id") .null
      let tidV ← j.getD (S "task_id") .null
      let taskId := pyStrip (pyStr (pyOr (pyOr idV tidV) (.jstr [])))
      if taskId.isEmpty then .error (.runtime (S "视频任务创建返回缺少任务ID"))
      else pure taskId

/-- `_query_video_task` (views.py lines 303-314): the payload and the
    lowercased status string of one status poll. -/
def queryVideoTask (resp : Except PyExc HttpResp) : Except PyExc (JVal × Str) := do
  let r ← resp
  if r.status ≠ 200 then
    .error (.runtime (S "视频任务查询失败: HTTP " ++ natToStr r.status))
  else do
    let j ← jsonOf r
    let sV ← j.getD (S "status") .null
    let tV ← j.getD (S "task_status") .null
    pure (j, toLowerStr (pyStr (pyOr (pyOr sV tV) (.jstr []))))

/-- The URL shape test of `_extract_video_url` (views.py line 239):
    an `isinstance str` value whose stripped lowercase form starts with
    `http` and whose lowercase form contains `.mp4`. -/
def looksLikeVideoUrl (s : Str) : Bool :=
  (S "http").isPrefixOf (toLowerStr (pyStrip s)) &&
    containsSub (S ".mp4") (toLowerStr s)

/-- The ordered direct-key probe list of views.py line 237. -/
def videoUrlKeys : List Str :=
  [S "video_url", S "url", S "file_url", S "output_url", S "download_url"]

/-- The direct key probe of `_extract_video_url` (views.py lines 237-240):
    the first probe key whose value passes the URL shape test wins. -/
def directUrlHit (fs : List (Str × JVal)) : Str :=
  videoUrlKeys.foldl
    (fun acc k =>
      if acc.isEmpty then
        match fs.lookup k with
        | some (.jstr v) => if looksLikeVideoUrl v then pyStrip v else []
        | _ => []
      else acc)
    []

mutual

/-- `_extract_video_url` (views.py lines 235-250): recursively search the
    payload for a plausible video URL, returning `""` when none exists. -/
def extractVideoUrl : JVal → Str
  | .jobj fs =>
      let direct := directUrlHit fs
      if direct.isEmpty then extractFromValues fs else direct
  | .jarr xs => extractFromItems xs
  | _ => []

/-- The `for value in payload.values()` recursion of views.py lines 241-244. -/
def extractFromValues : List (Str × JVal) → Str
  | [] => []
  | (_, v) :: fs =>
      let found := extractVideoUrl v
      if found.isEmpty then extractFromValues fs else found

/-- The `for item in payload` recursion of views.py lines 245-249. -/
def extractFromItems : List JVal → Str
  | [] => []
  | x :: xs =>
      let found := extractVideoUrl x
      if found.isEmpty then extractFromItems xs else found

end

/-- The failed-family status strings of views.py line 319. -/
def failStates : List Str := [S "failed", S "error", S "canceled", S "cancelled"]

/-- The succeeded-family status strings of views.py line 318. -/
def successStates : List Str := [S "succeeded", S "success", S "completed", S "done"]

/-- The polling loop of `_wait_for_video_url` (views.py lines 317-334):
    `polls i` is the provider response to the i-th status query (the query
    URL embeds the task id, which does not otherwise influence behaviour);
    the `Nat` argument is the remaining attempt budget. -/
def waitForVideoUrlAux (polls : Nat → Except PyExc HttpResp) :
    Nat → Except PyExc Str
  | 0 => .error (.runtime (S "视频生成超时，请稍后重试"))
  | n + 1 =>
    match queryVideoTask (polls 0) with
    | .error e => .error e
    | .ok (payload, statusText) =>
      if failStates.contains statusText then
        .error (.runtime (S "视频生成失败: " ++ (jdumps payload).take 300))
      else if successStates.contains statusText then
        let videoUrl := extractVideoUrl payload
        if videoUrl.isEmpty then
          let earlyUrl := extractVideoUrl payload
          if earlyUrl.isEmpty then waitForVideoUrlAux (fun i => polls (i + 1)) n
          else .ok earlyUrl
        else .ok videoUrl
      else
        let earlyUrl := extractVideoUrl payload
        if earlyUrl.isEmpty then waitForVideoUrlAux (fun i => polls (i + 1)) n
        else .ok earlyUrl

/-- `_wait_for_video_url` with the configured attempt budget
    (`POLL_MAX_ATTEMPTS`, views.py line 321). -/
def waitForVideoUrl (cfg : Config) (polls : Nat → Except PyExc HttpResp) :
    Except PyExc Str :=
  waitForVideoUrlAux polls cfg.maxPollAttempts

/-- Response headers as seen through `requests` (`resp.headers.get`). -/
structure HeaderResp where
  getHeader : Str → Option Str

/-- Oracles for the three probe tiers of `_head_content_length`: the HEAD
    request, the ranged GET, and the streamed download (chunk byte counts
    as produced by `iter_content`). -/
structure ProbeWorld where
  headResp : Except PyExc HeaderResp
  rangeResp : Except PyExc HeaderResp
  streamChunks : Except PyExc (List Nat)

/-- Python `a or b` where both operands are `headers.get(...)` results
    (`None` or a string; the empty string is falsy). -/
def pyOrHeader (a b : Option Str) : Option Str :=
  match a with
  | some s => if s.isEmpty then b else some s
  | none => b

/-- Suffix after the last `/` — the `content_range.rsplit("/", 1)[-1]` of
    views.py line 371 (only used on strings containing a slash). -/
def afterLastSlash (s : Str) : Str :=
  (s.reverse.takeWhile (fun c => c ≠ '/')).reverse

/-- The chunk-accumulation loop of the streamed fallback
    (views.py lines 382-391): empty chunks are skipped and accumulation
    stops once the 8 MiB probe cap is reached. -/
def streamCount : Nat → List Nat → Nat
  | got, [] => got
  | got, c :: cs =>
      if c = 0 then streamCount got cs
      else
        let got' := got + c
        if 8 * 1024 * 1024 ≤ got' then got' else streamCount got' cs

/-- The `Content-Length` check shared by tiers 1 and 2
    (views.py lines 353-355 and 374-376): `raw and str(raw).isdigit()`. -/
def contentLengthOf (r : HeaderResp) : Option Nat :=
  match pyOrHeader (r.getHeader (S "Content-Length"))
      (r.getHeader (S "content-length")) with
  | some raw => if isDigitStr raw then some (digitsToNat raw) else none
  | none => none

/-- The streamed-download fallback tier of `_head_content_length`
    (views.py lines 380-393): any exception yields 0. -/
def probeTier3 (w : ProbeWorld) : Int :=
  match w.streamChunks with
  | .error _ => 0
  | .ok chunks => (streamCount 0 chunks : Int)

/-- The ranged-GET fallback tier of `_head_content_length`
    (views.py lines 359-378): `Content-Range` total first, then
    `Content-Length`; any exception falls through to the streamed tier. -/
def probeTier2 (w : ProbeWorld) : Int :=
  match w.rangeResp with
  | .error _ => probeTier3 w
  | .ok r =>
    let contentRange := (pyOrHeader (r.getHeader (S "Content-Range"))
      (r.getHeader (S "content-range"))).getD []
    if containsSub (S "/") contentRange then
      let total := pyStrip (afterLastSlash contentRange)
      if isDigitStr total then (digitsToNat total : Int)
      else
        match contentLengthOf r with
        | some n => (n : Int)
        | none => probeTier3 w
    else
      match contentLengthOf r with
      | some n => (n : Int)
      | none => probeTier3 w

/-- `_head_content_length` (views.py lines 349-393): the three-tier
    best-effort size probe.  Every failure path of the source is absorbed
    by a bare `except`, so the embedding is a total function — the probe
    never raises. -/
def headContentLength (w : ProbeWorld) : Int :=
  match w.headResp with
  | .error _ => probeTier2 w
  | .ok r =>
    match contentLengthOf r with
    | some n => (n : Int)
    | none => probeTier2 w

/-- `_format_size` (views.py lines 337-346).  CPython renders with float
    division and `f"{value:.2f}"`; the embedding uses exact hundredths
    with truncation, which agrees except for float rounding of the last
    printed digit (no claim depends on the rendered text). -/
def formatSize (sizeBytes : Int) : Str :=
  if sizeBytes ≤ 0 then S "-"
  else
    let n := sizeBytes.toNat
    let units := [S "B", S "KB", S "MB", S "GB"]
    let idx := if n ≥ 1024 ^ 3 then 3 else if n ≥ 1024 ^ 2 then 2
      else if n ≥ 1024 then 1 else 0
    let hundredths := n * 100 / 1024 ^ idx
    natToStr (hundredths / 100) ++ S "." ++
      (let frac := hundredths % 100
       (if frac < 10 then S "0" else []) ++ natToStr frac) ++
      ' ' :: units.getD idx []

/-- Environment configuration read by `common/cos_utils.py`; `none` means
    the variable is unset. -/
structure CosEnv where
  secretId : Option Str
  secretKey : Option Str
  region : Option Str
  bucket : Option Str
  scheme : Str
  uploadPrefixEnv : Str
  signedUrl : Bool
  sdkAvailable : Bool

/-- Oracles for the durable-storage world: the outcome of `put_object`
    and of `get_object_url`, whether the local temp file exists, and the
    date/uuid fragments that feed the object key. -/
structure CosWorld where
  putOutcome : Except PyExc Unit
  signedUrlOutcome : Except PyExc Str
  fileOk : Bool
  dateStr : Str
  uuid8 : Str

/-- Python truthiness of an optional environment string: unset and empty
    are both falsy. -/
def credPresent : Option Str → Bool
  | some s => !s.isEmpty
  | none => false

/-- `_get_client` (cos_utils.py lines 18-44): `none` when the credential
    triple is incomplete or the SDK is unavailable (module-level caching
    is immaterial to a single call and not modelled). -/
def getClient (env : CosEnv) : Option Unit :=
  if credPresent env.secretId && credPresent env.secretKey &&
      credPresent env.region then
    if env.sdkAvailable then some () else none
  else none

/-- Python `str.strip("/")`. -/
def stripSlashes (s : Str) : Str :=
  ((s.dropWhile (fun c => c = '/')).reverse.dropWhile (fun c => c = '/')).reverse

/-- `_build_key` (cos_utils.py lines 47-52). -/
def buildKey (env : CosEnv) (key : Str) : Str :=
  let prefixStr := stripSlashes (pyStrip env.uploadPrefixEnv)
  let cleanedKey := key.dropWhile (fun c => c = '/')
  if prefixStr.isEmpty then cleanedKey else prefixStr ++ '/' :: cleanedKey

/-- `build_public_url` (cos_utils.py lines 55-61). -/
def buildPublicUrl (env : CosEnv) (key : Str) : Option Str :=
  if credPresent env.bucket && credPresent env.region then
    some (env.scheme ++ S "://" ++ (env.bucket.getD []) ++ S ".cos." ++
      (env.region.getD []) ++ S ".myqcloud.com/" ++
      key.dropWhile (fun c => c = '/'))
  else none

/-- `upload_file_to_cos` (cos_utils.py lines 64-93): a total function —
    every failure of the storage backend is caught and yields `none`
    (the `COS_SIGN_EXPIRES` parsing only shapes the signed-URL request
    and is absorbed by the `signedUrlOutcome` oracle). -/
def uploadFileToCos (env : CosEnv) (w : CosWorld) (key : Str) : Option Str :=
  if (getClient env).isNone || !credPresent env.bucket then none
  else if !w.fileOk then none
  else
    let cosKey := buildKey env key
    match w.putOutcome with
    | .error _ => none
    | .ok _ =>
      if env.signedUrl then
        match w.signedUrlOutcome with
        | .error _ => none
        | .ok u => some u
      else buildPublicUrl env cosKey

/-- The streamed source-video download of `_upload_video_to_cos`
    (views.py line 399); only its status code is observable. -/
structure DownloadResp where
  status : Nat

/-- `_upload_video_to_cos` (views.py lines 396-409). -/
def uploadVideoToCos (cfg : Config) (env : CosEnv) (w : CosWorld)
    (dl : Except PyExc DownloadResp) (_videoUrl keyword : Str) :
    Except PyExc Str := do
  if !cfg.useCos then pure []
  else do
    let resp ← dl
    if resp.status ≠ 200 then pure []
    else
      let title := safeFilename keyword
      let key := S "publish/videos/" ++ w.dateStr ++ '/' :: title ++
        '-' :: w.uuid8 ++ S ".mp4"
      pure ((uploadFileToCos env w key).getD [])

/-- A per-keyword outcome record — the dict built by
    `_generate_single_video`; success-only fields are `Option`s, absent in
    error records exactly as the corresponding keys are absent from the
    Python dict. -/
structure PubResult where
  keyword : Str
  error : Option Str := none
  videoTitle : Option Str := none
  fileName : Option Str := none
  copyText : Option Str := none
  taskId : Option Str := none
  videoUrl : Option Str := none
  sourceVideoUrl : Option Str := none
  videoRatio : Option Str := none
  videoResolution : Option Str := none
  videoFormat : Option Str := none
  videoDuration : Option Nat := none
  videoSizeBytes : Option Int := none
  videoSizeHuman : Option Str := none
  storedOnCos : Option Bool := none
  usedSafeFallback : Option Bool := none
  deriving DecidableEq, Repr

/-- An error record `{"keyword": ..., "error": ...}`
    (views.py lines 415 and 448). -/
def errResult (kw msg : Str) : PubResult := { keyword := kw, error := some msg }

/-- The success dict of views.py lines 430-446
    (`final_video_url = cos_video_url or source_video_url`). -/
def successResult (cfg : Config) (kw copyText taskId srcUrl cosUrl : Str)
    (sizeBytes : Int) (usedSafe : Bool) : PubResult :=
  let title := safeFilename kw
  { keyword := kw
    videoTitle := some title
    fileName := some (title ++ S ".mp4")
    copyText := some copyText
    taskId := some taskId
    videoUrl := some (if cosUrl.isEmpty then srcUrl else cosUrl)
    sourceVideoUrl := some srcUrl
    videoRatio := some cfg.videoRatio
    videoResolution := some (S "1080p")
    videoFormat := some (S "mp4")
    videoDuration := some 5
    videoSizeBytes := some sizeBytes
    videoSizeHuman := some (formatSize sizeBytes)
    storedOnCos := some (!cosUrl.isEmpty)
    usedSafeFallback := some usedSafe }

/-- All external interactions of one `_generate_single_video` invocation,
    as oracles. -/
structure RunEnv where
  copyResp : Except PyExc HttpResp
  submitResp0 : Except PyExc HttpResp
  rewriteResp : Except PyExc HttpResp
  submitResp1 : Except PyExc HttpResp
  polls : Nat → Except PyExc HttpResp
  dlResp : Except PyExc DownloadResp
  cosWorld : CosWorld
  probe : ProbeWorld

/-- The tail of `_generate_single_video` once a task id has been obtained
    (views.py lines 425-446): await the video URL, transfer the artifact,
    probe the size, assemble the success record. -/
def afterSubmit (cfg : Config) (cosEnv : CosEnv) (env : RunEnv)
    (kw copyText taskId : Str) (usedSafe : Bool) : Except PyExc PubResult := do
  let srcUrl ← waitForVideoUrl cfg env.polls
  let cosUrl ← uploadVideoToCos cfg cosEnv env.cosWorld env.dlResp srcUrl kw
  let sizeBytes := headContentLength env.probe
  pure (successResult cfg kw copyText taskId srcUrl cosUrl sizeBytes usedSafe)

/-- The guarded body of `_generate_single_video` for a non-blank keyword
    (views.py lines 416-446), instrumented with the number of
    safety-rewrite retries taken; the source's nested
    `try/except SensitiveContentError` contains no loop, which the match
    structure makes explicit. -/
def runOneCore (cfg : Config) (cosEnv : CosEnv) (env : RunEnv) (kw : Str) :
    Except PyExc PubResult × Nat :=
  match generateCopy cfg env.copyResp kw with
  | .error e => (.error e, 0)
  | .ok copy0 =>
    match submitVideoTask cfg env.submitResp0 copy0 with
    | .ok taskId => (afterSubmit cfg cosEnv env kw copy0 taskId false, 0)
    | .error (.sensitive _) =>
      (match rewriteCopyForSafety cfg env.rewriteResp kw copy0 with
       | .error e => (.error e, 1)
       | .ok copy1 =>
         match submitVideoTask cfg env.submitResp1 copy1 with
         | .error e => (.error e, 1)
         | .ok taskId => (afterSubmit cfg cosEnv env kw copy1 taskId true, 1))
    | .error e => (.error e, 0)

/-- `_generate_single_video` (views.py lines 412-448): blank keywords are
    rejected up front; every exception of the body is converted into an
    error record by the outer `except Exception`. -/
def runOne (cfg : Config) (cosEnv : CosEnv) (env : RunEnv) (kw : Str) : PubResult :=
  let kwS := pyStrip kw
  if kwS.isEmpty then errResult [] (S "关键词为空")
  else
    match (runOneCore cfg cosEnv env kwS).1 with
    | .ok r => r
    | .error e => errResult kwS e.message

/-- The keyword normalisation of `auto_publish` for a list payload
    (views.py lines 474-479): trim, drop blanks, deduplicate preserving
    order. -/
def normalizeKeywords (raw : List Str) : List Str :=
  raw.foldl
    (fun acc item =>
      let word := pyStrip item
      if !word.isEmpty && !acc.contains word then acc ++ [word] else acc)
    []

/-- The index-slot writes of the `as_completed` gather loop
    (views.py lines 493-505): `order` is the completion order of the
    futures, each writing its own pre-assigned slot. -/
def setAll (f : Nat → PubResult) (order : List Nat)
    (init : List (Option PubResult)) : List (Option PubResult) :=
  order.foldl (fun acc i => acc.set i (some (f i))) init

/-- `auto_publish` for an authenticated request with a list payload
    (views.py lines 469-516), restricted to what the batch claims observe:
    `hot` is the outcome of the `_fetch_hot_keyword` fallback, `envs`
    gives the per-index pipeline oracles, and `order` is the completion
    order of the futures.  The error branch is the HTTP 502 response. -/
def autoPublishResults (cfg : Config) (cosEnv : CosEnv) (envs : Nat → RunEnv)
    (hot : Except PyExc Str) (raw : List Str) (order : List Nat) :
    Except Str (List (Option PubResult)) :=
  let ks0 := normalizeKeywords raw
  match (if ks0.isEmpty then
           match hot with
           | .ok w => Except.ok [w]
           | .error e => Except.error e.message
         else Except.ok ks0 : Except Str (List Str)) with
  | .error m => .error m
  | .ok ks1 =>
    let ks := ks1.take cfg.maxKeywordsPerBatch
    .ok (setAll (fun i => runOne cfg cosEnv (envs i) (ks.getD i [])) order
          (List.replicate ks.length none))

/-- A concrete configuration used by the witness scenarios. -/
def cfgW : Config :=
  { doubaoApiKey := S "k", videoApiKey := S "k", videoModel := S "m",
    videoRatio := S "16:9", videoWatermark := false,
    videoResolution := S "1080p", useCos := false, maxPollAttempts := 45,
    maxKeywordsPerBatch := 5 }

/-- A durable-storage environment with no credentials configured. -/
def cosEnvNone : CosEnv :=
  { secretId := none, secretKey := none, region := none, bucket := none,
    scheme := S "https", uploadPrefixEnv := [], signedUrl := true,
    sdkAvailable := true }

/-- A benign durable-storage world for the witness scenarios. -/
def cosWorldW : CosWorld :=
  { putOutcome := .ok (), signedUrlOutcome := .ok (S "u"), fileOk := true,
    dateStr := S "20261012", uuid8 := S "abcd1234" }

/-- A probe world whose HEAD tier answers with `Content-Length: 123`. -/
def probeW : ProbeWorld :=
  { headResp := .ok ⟨fun k => if k = S "Content-Length" then some (S "123") else none⟩,
    rangeResp := .error (.netError []), streamChunks := .error (.netError []) }

/-- A successful copy-generation response. -/
def okCopyResp : HttpResp :=
  { status := 200, text := [],
    json := some (.jobj [(S "choices",
      .jarr [.jobj [(S "message", .jobj [(S "content", .jstr (S "文案A"))])]])]) }

/-- A non-200 submission response carrying the sensitive-content code. -/
def sensResp : HttpResp :=
  { status := 400, text := S "err",
    json := some (.jobj [(S "error",
      .jobj [(S "code", .jstr sensitiveSig), (S "message", .jstr (S "blocked"))])]) }

/-- A successful task-creation response with task id `task-1`. -/
def okSubmitResp : HttpResp :=
  { status := 200, text := [], json := some (.jobj [(S "id", .jstr (S "task-1"))]) }

/-- A poll response with terminal success status and a video URL. -/
def okPollResp : HttpResp :=
  { status := 200, text := [],
    json := some (.jobj [(S "status", .jstr (S "succeeded")),
      (S "video_url", .jstr (S "http://v/a.mp4"))]) }

/-- A pipeline run in which the first submission is blocked for sensitive
    content, the rewrite call soft-fails to the generic fallback copy, and
    the resubmission then succeeds. -/
def envW : RunEnv :=
  { copyResp := .ok okCopyResp, submitResp0 := .ok sensResp,
    rewriteResp := .ok { status := 500, text := [], json := none },
    submitResp1 := .ok okSubmitResp, polls := fun _ => .ok okPollResp,
    dlResp := .error (.netError []), cosWorld := cosWorldW, probe := probeW }

/-! ### Auxiliary lemmas about `pyStrip` -/

lemma dropWhile_idem (p : Char → Bool) (l : Str) :
    (l.dropWhile p).dropWhile p = l.dropWhile p := by
  induction l with
  | nil => rfl
  | cons a t ih =>
    cases h : p a
    · simp [List.dropWhile_cons, h]
    · simp [List.dropWhile_cons, h, ih]

lemma head_not_of_stable {p : Char → Bool} {a : Char} {t : Str}
    (h : (a :: t).dropWhile p = a :: t) : p a = false := by
  cases hq : p a
  · rfl
  · exfalso
    simp only [List.dropWhile_cons, hq, if_true] at h
    have hlen := (List.dropWhile_suffix (l := t) p).length_le
    rw [h] at hlen
    simp at hlen

lemma stable_init {p : Char → Bool} {l l' : Str} (h : l.dropWhile p = l)
    (hp : l' <+: l) : l'.dropWhile p = l' := by
  cases l' with
  | nil => rfl
  | cons a t =>
    rcases hp with ⟨r, hr⟩
    have hl : l = a :: (t ++ r) := by rw [← hr]; rfl
    rw [hl] at h
    have hpa : p a = false := head_not_of_stable h
    simp [List.dropWhile_cons, hpa]

lemma dropWhile_append_stable {p : Char → Bool} {l : Str} (x : Str)
    (h : l.dropWhile p = l) (hne : l ≠ []) :
    (l ++ x).dropWhile p = l ++ x := by
  cases l with
  | nil => exact absurd rfl hne
  | cons a t =>
    have hpa : p a = false := head_not_of_stable h
    simp [List.dropWhile_cons, hpa]

lemma pyStrip_stable (s : Str) :
    (pyStrip s).dropWhile Char.isWhitespace = pyStrip s := by
  have hsuf : ((s.dropWhile Char.isWhitespace).reverse.dropWhile
      Char.isWhitespace) <:+ (s.dropWhile Char.isWhitespace).reverse :=
    List.dropWhile_suffix _
  have hpre : pyStrip s <+: s.dropWhile Char.isWhitespace := by
    obtain ⟨t, ht⟩ := hsuf
    refine ⟨t.reverse, ?_⟩
    calc pyStrip s ++ t.reverse
        = (t ++ ((s.dropWhile Char.isWhitespace).reverse.dropWhile
            Char.isWhitespace)).reverse := by
          simp [pyStrip]
      _ = s.dropWhile Char.isWhitespace := by
          rw [ht, List.reverse_reverse]
  exact stable_init (dropWhile_idem _ _) hpre

lemma pyStrip_idem (s : Str) : pyStrip (pyStrip s) = pyStrip s := by
  have h1 : (pyStrip s).dropWhile Char.isWhitespace = pyStrip s := pyStrip_stable s
  have h2 : (pyStrip s).reverse =
      (s.dropWhile Char.isWhitespace).reverse.dropWhile Char.isWhitespace := by
    simp [pyStrip]
  calc pyStrip (pyStrip s)
      = (((pyStrip s).dropWhile Char.isWhitespace).reverse.dropWhile
          Char.isWhitespace).reverse := rfl
    _ = ((pyStrip s).reverse.dropWhile Char.isWhitespace).reverse := by rw [h1]
    _ = pyStrip s := by rw [h2, dropWhile_idem]; simp [pyStrip]

lemma pyStrip_append_styleHint {s : Str} (h0 : (pyStrip s).isEmpty = false) :
    pyStrip (pyStrip s ++ ' ' :: styleHint) = pyStrip s ++ ' ' :: styleHint := by
  have hstable := pyStrip_stable s
  have hne : pyStrip s ≠ [] := by
    intro hx; rw [hx] at h0; simp at h0
  have hX1 : (pyStrip s ++ ' ' :: styleHint).dropWhile Char.isWhitespace =
      pyStrip s ++ ' ' :: styleHint :=
    dropWhile_append_stable _ hstable hne
  have hd : ((pyStrip s ++ ' ' :: styleHint).reverse).dropWhile Char.isWhitespace =
      (pyStrip s ++ ' ' :: styleHint).reverse := by
    rw [List.reverse_append, List.reverse_cons, List.append_assoc]
    exact dropWhile_append_stable _ (by decide) (by decide)
  show ((((pyStrip s ++ ' ' :: styleHint)).dropWhile
      Char.isWhitespace).reverse.dropWhile Char.isWhitespace).reverse = _
  rw [hX1, hd, List.reverse_reverse]

lemma marker_in_append_styleHint (s : Str) :
    containsSub (S "二次元") (pyStrip s ++ ' ' :: styleHint) = true := by
  have h1 : (S "二次元") <:+: styleHint := by decide
  have h2 : styleHint <:+: (pyStrip s ++ ' ' :: styleHint) :=
    ⟨pyStrip s ++ [' '], [], by simp⟩
  have h3 := h1.trans h2
  simp [containsSub, h3]

/-- C9: `_ensure_anime_style` is idempotent — applying it twice yields the
    same result as applying it once: its output always contains one of the
    fixed style markers (the appended hint itself carries one), and an
    output is already stripped, so a second application returns it
    unchanged. -/
theorem C9_ensure_anime_style_idempotent (s : Str) :
    ensureAnimeStyle (ensureAnimeStyle s) = ensureAnimeStyle s := by
  cases h0 : (pyStrip s).isEmpty with
  | true =>
    have hs : ensureAnimeStyle s = styleHint := by
      simp [ensureAnimeStyle, h0]
    rw [hs]
    decide
  | false =>
    cases hm : (containsSub (S "二次元") (pyStrip s) ||
        containsSub (S "日漫") (pyStrip s) ||
        containsSub (S "动漫") (pyStrip s)) with
    | true =>
      have hs : ensureAnimeStyle s = pyStrip s := by
        simp only [ensureAnimeStyle, h0, hm]
        simp
      rw [hs]
      have h1 : pyStrip (pyStrip s) = pyStrip s := pyStrip_idem s
      simp only [ensureAnimeStyle, h1, h0, hm]
      simp
    | false =>
      have hs : ensureAnimeStyle s = pyStrip s ++ ' ' :: styleHint := by
        simp only [ensureAnimeStyle, h0, hm]
        simp
      rw [hs]
      have hXstrip := pyStrip_append_styleHint h0
      have hXmark := marker_in_append_styleHint s
      have hXne : (pyStrip s ++ ' ' :: styleHint).isEmpty = false := by
        cases hps : pyStrip s <;> simp
      simp only [ensureAnimeStyle, hXstrip, hXne, hXmark]
      simp

/-! ### Reduction helpers for the `Except` monad -/

@[simp] lemma ok_bind {α β : Type} (a : α) (f : α → Except PyExc β) :
    (Except.ok a : Except PyExc α) >>= f = f a := rfl

@[simp] lemma error_bind {α β : Type} (e : PyExc) (f : α → Except PyExc β) :
    (Except.error e : Except PyExc α) >>= f = .error e := rfl

@[simp] lemma pure_eq_ok {α : Type} (a : α) :
    (pure a : Except PyExc α) = .ok a := rfl

/-! ### C5: the size probe -/

lemma probeTier3_nonneg (w : ProbeWorld) : 0 ≤ probeTier3 w := by
  unfold probeTier3
  cases hsc : w.streamChunks with
  | error e => simp
  | ok chunks => exact Int.natCast_nonneg _

lemma probeTier2_nonneg (w : ProbeWorld) : 0 ≤ probeTier2 w := by
  unfold probeTier2
  cases hr : w.rangeResp with
  | error e => exact probeTier3_nonneg w
  | ok r =>
    dsimp only
    split
    · split
      · exact Int.natCast_nonneg _
      · split
        · exact Int.natCast_nonneg _
        · exact probeTier3_nonneg w
    · split
      · exact Int.natCast_nonneg _
      · exact probeTier3_nonneg w

/-- C5: `_head_content_length` never raises (it is total by construction —
    every failure path of the source is absorbed by a bare `except`),
    never returns a negative value, and whenever the first-tier HEAD
    request succeeds with a non-empty digit-string `Content-Length`
    header, exactly that integer is returned. -/
theorem C5_probe_size_nonneg_head_exact (w : ProbeWorld) :
    0 ≤ headContentLength w ∧
    (∀ r s, w.headResp = .ok r →
      pyOrHeader (r.getHeader (S "Content-Length"))
        (r.getHeader (S "content-length")) = some s →
      isDigitStr s = true →
      headContentLength w = (digitsToNat s : Int)) := by
  refine ⟨?_, ?_⟩
  · unfold headContentLength
    cases hh : w.headResp with
    | error e => exact probeTier2_nonneg w
    | ok r =>
      dsimp only
      cases hcl : contentLengthOf r with
      | none => exact probeTier2_nonneg w
      | some n => exact Int.natCast_nonneg _
  · intro r s h1 h2 h3
    have hcl : contentLengthOf r = some (digitsToNat s) := by
      simp [contentLengthOf, h2, h3]
    simp [headContentLength, h1, hcl]

/-- C5 witness: in `probeW` the HEAD tier answers `Content-Length: 123`,
    and the probe returns exactly 123, which is non-negative. -/
theorem C5_witness :
    0 ≤ headContentLength probeW ∧ headContentLength probeW = (123 : Int) := by
  refine ⟨(C5_probe_size_nonneg_head_exact probeW).1, ?_⟩
  have h := (C5_probe_size_nonneg_head_exact probeW).2
    ⟨fun k => if k = S "Content-Length" then some (S "123") else none⟩ (S "123")
    rfl (by decide) (by decide)
  exact h.trans (by decide)

/-! ### C4: the safety rewrite -/

lemma fallbackCopy_ne_nil (kw : Str) : fallbackCopy kw ≠ [] := by
  unfold fallbackCopy
  intro h
  rw [List.append_eq_nil, List.append_eq_nil] at h
  exact absurd h.1.1 (by decide)

/-- C4 counterexample: with credentials configured, a transport-level
    exception raised by the rewrite HTTP call propagates out of
    `_rewrite_copy_for_safety` — the function is not exception-free. -/
theorem C4_counterexample :
    rewriteCopyForSafety cfgW (.error (.netError (S "connection refused")))
      (S "kw") (S "copy") = .error (.netError (S "connection refused")) := rfl

/-- C4 (amended): provided the rewrite HTTP call itself returns a response
    and, on a 200 status, the body parses and the content-extraction chain
    does not raise, `_rewrite_copy_for_safety` returns a non-empty copy
    text; in every handled failure case — missing credentials, non-200
    status, or an empty extracted rewrite — that text is the deterministic
    generic fallback built from the keyword and style tokens. -/
theorem C4_rewrite_soft_fail (cfg : Config) (resp : Except PyExc HttpResp)
    (kw ct : Str) :
    (cfg.doubaoApiKey.isEmpty = true →
      rewriteCopyForSafety cfg resp kw ct = .ok (fallbackCopy kw)) ∧
    (∀ r, resp = .ok r → r.status ≠ 200 → cfg.doubaoApiKey.isEmpty = false →
      rewriteCopyForSafety cfg resp kw ct = .ok (fallbackCopy kw)) ∧
    (∀ r j s, resp = .ok r → r.status = 200 → r.json = some j →
      extractChatContent j = .ok s → cfg.doubaoApiKey.isEmpty = false →
      rewriteCopyForSafety cfg resp kw ct =
        .ok (if s.isEmpty then fallbackCopy kw else s)) ∧
    (∀ s, rewriteCopyForSafety cfg resp kw ct = .ok s → s ≠ []) := by
  refine ⟨?_, ?_, ?_, ?_⟩
  · intro hk
    simp [rewriteCopyForSafety, hk]
  · intro r hre hst hk
    subst hre
    simp [rewriteCopyForSafety, hk, hst]
  · intro r j s hre h200 hj hex hk
    subst hre
    simp [rewriteCopyForSafety, hk, h200, jsonOf, hj, hex]
  · intro s hok
    by_cases hk : cfg.doubaoApiKey.isEmpty
    · simp [rewriteCopyForSafety, hk] at hok
      rw [← hok]
      exact fallbackCopy_ne_nil kw
    · rw [Bool.not_eq_true] at hk
      cases hre : resp with
      | error e =>
        rw [hre] at hok
        simp [rewriteCopyForSafety, hk] at hok
      | ok r =>
        rw [hre] at hok
        by_cases h200 : r.status = 200
        · cases hj : r.json with
          | none =>
            simp [rewriteCopyForSafety, hk, h200, jsonOf, hj] at hok
          | some j =>
            cases hex : extractChatContent j with
            | error e =>
              simp [rewriteCopyForSafety, hk, h200, jsonOf, hj, hex] at hok
            | ok s2 =>
              simp [rewriteCopyForSafety, hk, h200, jsonOf, hj, hex] at hok
              by_cases hs2 : s2 = []
              · rw [if_pos hs2] at hok
                rw [← hok]
                exact fallbackCopy_ne_nil kw
              · rw [if_neg hs2] at hok
                rw [← hok]
                exact hs2
        · simp [rewriteCopyForSafety, hk, h200] at hok
          rw [← hok]
          exact fallbackCopy_ne_nil kw

/-- C4 witness: the three handled failure shapes produce the fallback, a
    successful 200 rewrite produces the (non-empty) extracted text. -/
theorem C4_witness :
    rewriteCopyForSafety { cfgW with doubaoApiKey := [] } (.ok okCopyResp)
      (S "kw") (S "c") = .ok (fallbackCopy (S "kw")) ∧
    rewriteCopyForSafety cfgW (.ok { status := 500, text := [], json := none })
      (S "kw") (S "c") = .ok (fallbackCopy (S "kw")) ∧
    rewriteCopyForSafety cfgW (.ok okCopyResp) (S "kw") (S "c") =
      .ok (S "文案A") := by
  refine ⟨?_, ?_, ?_⟩
  · exact (C4_rewrite_soft_fail { cfgW with doubaoApiKey := [] }
      (.ok okCopyResp) (S "kw") (S "c")).1 (by decide)
  · exact (C4_rewrite_soft_fail cfgW
      (.ok { status := 500, text := [], json := none }) (S "kw") (S "c")).2.1
      { status := 500, text := [], json := none } rfl (by decide) (by decide)
  · have h := (C4_rewrite_soft_fail cfgW (.ok okCopyResp) (S "kw") (S "c")).2.2.1
      okCopyResp ((.jobj [(S "choices",
        .jarr [.jobj [(S "message", .jobj [(S "content", .jstr (S "文案A"))])]])]))
      (S "文案A") rfl rfl rfl (by rfl) (by decide)
    simpa using h

/-! ### C6: submission error classification -/

/-- A 200 task-creation response whose JSON body is an array: it has no
    task id field, and `payload.get` on it raises. -/
def submit200ArrResp : HttpResp :=
  { status := 200, text := [], json := some (.jarr []) }

/-- A non-200 task-creation response with an unparseable body. -/
def submit500Resp : HttpResp :=
  { status := 500, text := S "oops", json := none }

/-- A 200 task-creation response whose JSON object body has no task id. -/
def submit200NoIdResp : HttpResp :=
  { status := 200, text := [], json := some (.jobj []) }

/-- C6 counterexample: on a 200 response whose (non-object) JSON body has
    no task id field, `_submit_video_task` raises `AttributeError` from
    `payload.get`, not the `RuntimeError` (`TaskSubmissionFailed`) the
    claim names. -/
theorem C6_counterexample :
    submitVideoTask cfgW (.ok submit200ArrResp) (S "c") =
      .error PyExc.attrError ∧
    ∀ m, submitVideoTask cfgW (.ok submit200ArrResp) (S "c") ≠
      .error (.runtime m) := by
  have h1 : submitVideoTask cfgW (.ok submit200ArrResp) (S "c") =
      .error PyExc.attrError := rfl
  refine ⟨h1, ?_⟩
  intro m h
  rw [h1] at h
  simp at h

/-- C6 (amended): with an API key configured — on a non-200 provider
    response whose parsed error code matches the sensitive-content
    signature, `SensitiveContentError` is raised; on any other non-200
    response, a `RuntimeError` carrying the provider message is raised;
    and on a 200 response whose JSON object body yields a blank task id,
    a `RuntimeError` is raised (a 200 body that is not a JSON object
    instead raises `AttributeError`). -/
theorem C6_submit_error_classification (cfg : Config)
    (resp : Except PyExc HttpResp) (ct : Str)
    (hkey : cfg.videoApiKey.isEmpty = false) :
    (∀ r, resp = .ok r → r.status ≠ 200 →
      eqSensitiveSig (parseSubmitErr r (r.text.take 500)).1 = true →
      submitVideoTask cfg resp ct = .error (.sensitive
        (S "视频文案触发风控: " ++ pyStr (parseSubmitErr r (r.text.take 500)).2))) ∧
    (∀ r, resp = .ok r → r.status ≠ 200 →
      eqSensitiveSig (parseSubmitErr r (r.text.take 500)).1 = false →
      submitVideoTask cfg resp ct = .error (.runtime
        (S "视频任务创建失败: HTTP " ++ natToStr r.status ++ S ", " ++
          pyStr (parseSubmitErr r (r.text.take 500)).2))) ∧
    (∀ r fs, resp = .ok r → r.status = 200 → r.json = some (.jobj fs) →
      pyStrip (pyStr (pyOr (pyOr ((fs.lookup (S "id")).getD .null)
        ((fs.lookup (S "task_id")).getD .null)) (.jstr []))) = [] →
      submitVideoTask cfg resp ct =
        .error (.runtime (S "视频任务创建返回缺少任务ID"))) := by
  refine ⟨?_, ?_, ?_⟩
  · intro r hre hst hsig
    subst hre
    simp [submitVideoTask, hkey, hst, hsig]
  · intro r hre hst hsig
    subst hre
    simp [submitVideoTask, hkey, hst, hsig]
  · intro r fs hre h200 hj hid
    subst hre
    unfold submitVideoTask
    rw [hkey]
    simp only [Bool.false_eq_true, if_false, ok_bind]
    rw [if_neg (by simp [h200])]
    simp only [jsonOf, hj, ok_bind, JVal.getD, hid]
    simp [hid]

/-- C6 witness: the three classified shapes at concrete responses — a
    sensitive-coded 400, a plain 500, and a 200 object body without a
    task id. -/
theorem C6_witness :
    submitVideoTask cfgW (.ok sensResp) (S "c") =
      .error (.sensitive (S "视频文案触发风控: blocked")) ∧
    submitVideoTask cfgW (.ok submit500Resp) (S "c") =
      .error (.runtime (S "视频任务创建失败: HTTP 500, oops")) ∧
    submitVideoTask cfgW (.ok submit200NoIdResp) (S "c") =
      .error (.runtime (S "视频任务创建返回缺少任务ID")) := by
  refine ⟨?_, ?_, ?_⟩
  · exact (C6_submit_error_classification cfgW (.ok sensResp) (S "c")
      (by decide)).1 sensResp rfl (by decide) (by decide)
  · exact (C6_submit_error_classification cfgW (.ok submit500Resp) (S "c")
      (by decide)).2.1 submit500Resp rfl (by decide) (by decide)
  · exact (C6_submit_error_classification cfgW (.ok submit200NoIdResp) (S "c")
      (by decide)).2.2 submit200NoIdResp ([] : List (Str × JVal)) rfl rfl rfl
      (by decide)

/-! ### C7: the polling loop -/

lemma success_not_fail {st : Str} (h : successStates.contains st = true) :
    failStates.contains st = false := by
  have hm : st ∈ successStates := by simpa using h
  simp only [successStates, List.mem_cons, List.mem_singleton,
    List.not_mem_nil, or_false] at hm
  rcases hm with h1 | h1 | h1 | h1 <;> subst h1 <;> decide

/-- One poll of the loop is unresolved: the status query succeeds, the
    status is not in the failed family, and no URL is extractable (which
    also covers a succeeded-family status whose payload has no URL). -/
def unresolvedPoll (resp : Except PyExc HttpResp) : Prop :=
  ∃ j st, queryVideoTask resp = .ok (j, st) ∧ failStates.contains st = false ∧
    extractVideoUrl j = []

lemma wait_timeout (polls : Nat → Except PyExc HttpResp) (n : Nat)
    (h : ∀ i, i < n → unresolvedPoll (polls i)) :
    waitForVideoUrlAux polls n = .error (.runtime (S "视频生成超时，请稍后重试")) := by
  induction n generalizing polls with
  | zero => rfl
  | succ n ih =>
    obtain ⟨j, st, hq, hf, hx⟩ := h 0 (Nat.succ_pos n)
    have hrest : ∀ i, i < n → unresolvedPoll (polls (i + 1)) := fun i hi =>
      h (i + 1) (Nat.succ_lt_succ hi)
    unfold waitForVideoUrlAux
    rw [hq]
    cases hs : successStates.contains st
    · simp only [hf, hs, hx]
      simp
      exact ih _ hrest
    · simp only [hf, hs, hx]
      simp
      exact ih _ hrest

/-- C7: poll classification of `_wait_for_video_url` — a failed-family
    status raises `GenerationFailed` carrying the truncated provider
    payload; a succeeded-family status with an extractable URL returns
    that URL; an extractable URL is returned opportunistically even
    before a terminal status; and when every poll within the attempt
    budget is unresolved, the loop raises `GenerationTimedOut`. -/
theorem C7_wait_for_video_url_classification (cfg : Config)
    (polls : Nat → Except PyExc HttpResp) (j : JVal) (st : Str) :
    (queryVideoTask (polls 0) = .ok (j, st) →
      failStates.contains st = true → 0 < cfg.maxPollAttempts →
      waitForVideoUrl cfg polls =
        .error (.runtime (S "视频生成失败: " ++ (jdumps j).take 300))) ∧
    (queryVideoTask (polls 0) = .ok (j, st) →
      successStates.contains st = true → extractVideoUrl j ≠ [] →
      0 < cfg.maxPollAttempts →
      waitForVideoUrl cfg polls = .ok (extractVideoUrl j)) ∧
    (queryVideoTask (polls 0) = .ok (j, st) →
      failStates.contains st = false → extractVideoUrl j ≠ [] →
      0 < cfg.maxPollAttempts →
      waitForVideoUrl cfg polls = .ok (extractVideoUrl j)) ∧
    ((∀ i, i < cfg.maxPollAttempts → unresolvedPoll (polls i)) →
      waitForVideoUrl cfg polls =
        .error (.runtime (S "视频生成超时，请稍后重试"))) := by
  refine ⟨?_, ?_, ?_, ?_⟩
  · intro hq hf hpos
    have hf' : st ∈ failStates := by simpa using hf
    obtain ⟨n, hn⟩ : ∃ n, cfg.maxPollAttempts = n + 1 :=
      ⟨cfg.maxPollAttempts - 1, (Nat.succ_pred_eq_of_pos hpos).symm⟩
    unfold waitForVideoUrl
    rw [hn]
    unfold waitForVideoUrlAux
    rw [hq]
    simp [hf']
  · intro hq hs hurl hpos
    have hf' : st ∉ failStates := by simpa using success_not_fail hs
    have hs' : st ∈ successStates := by simpa using hs
    obtain ⟨n, hn⟩ : ∃ n, cfg.maxPollAttempts = n + 1 :=
      ⟨cfg.maxPollAttempts - 1, (Nat.succ_pred_eq_of_pos hpos).symm⟩
    unfold waitForVideoUrl
    rw [hn]
    unfold waitForVideoUrlAux
    rw [hq]
    simp [hf', hs', hurl]
  · intro hq hf hurl hpos
    have hf' : st ∉ failStates := by simpa using hf
    obtain ⟨n, hn⟩ : ∃ n, cfg.maxPollAttempts = n + 1 :=
      ⟨cfg.maxPollAttempts - 1, (Nat.succ_pred_eq_of_pos hpos).symm⟩
    unfold waitForVideoUrl
    rw [hn]
    unfold waitForVideoUrlAux
    rw [hq]
    cases hs : successStates.contains st
    · have hs' : st ∉ successStates := by simpa using hs
      simp [hf', hs', hurl]
    · have hs' : st ∈ successStates := by simpa using hs
      simp [hf', hs', hurl]
  · intro h
    exact wait_timeout polls cfg.maxPollAttempts h

/-- A poll response with a failed-family status. -/
def failPollResp : HttpResp :=
  { status := 200, text := [],
    json := some (.jobj [(S "status", .jstr (S "failed"))]) }

/-- A poll response with a non-terminal status but an extractable URL. -/
def earlyUrlPollResp : HttpResp :=
  { status := 200, text := [],
    json := some (.jobj [(S "status", .jstr (S "running")),
      (S "video_url", .jstr (S "http://v/a.mp4"))]) }

/-- A poll response with a non-terminal status and no URL. -/
def runningPollResp : HttpResp :=
  { status := 200, text := [],
    json := some (.jobj [(S "status", .jstr (S "running"))]) }

/-- C7 witness: the four classified behaviours at concrete poll streams —
    immediate failure, terminal success with URL, opportunistic early
    URL, and a full budget of unresolved polls timing out. -/
theorem C7_witness :
    waitForVideoUrl cfgW (fun _ => .ok failPollResp) =
      .error (.runtime (S "视频生成失败: " ++
        (jdumps (.jobj [(S "status", .jstr (S "failed"))])).take 300)) ∧
    waitForVideoUrl cfgW (fun _ => .ok okPollResp) =
      .ok (S "http://v/a.mp4") ∧
    waitForVideoUrl cfgW (fun _ => .ok earlyUrlPollResp) =
      .ok (S "http://v/a.mp4") ∧
    waitForVideoUrl cfgW (fun _ => .ok runningPollResp) =
      .error (.runtime (S "视频生成超时，请稍后重试")) := by
  refine ⟨?_, ?_, ?_, ?_⟩
  · exact (C7_wait_for_video_url_classification cfgW (fun _ => .ok failPollResp)
      (.jobj [(S "status", .jstr (S "failed"))]) (S "failed")).1
      rfl (by decide) (by decide)
  · exact (C7_wait_for_video_url_classification cfgW (fun _ => .ok okPollResp)
      (.jobj [(S "status", .jstr (S "succeeded")),
        (S "video_url", .jstr (S "http://v/a.mp4"))]) (S "succeeded")).2.1
      rfl (by decide) (by decide) (by decide)
  · exact (C7_wait_for_video_url_classification cfgW
      (fun _ => .ok earlyUrlPollResp)
      (.jobj [(S "status", .jstr (S "running")),
        (S "video_url", .jstr (S "http://v/a.mp4"))]) (S "running")).2.2.1
      rfl (by decide) (by decide) (by decide)
  · exact (C7_wait_for_video_url_classification cfgW
      (fun _ => .ok runningPollResp)
      (.jobj [(S "status", .jstr (S "running"))]) (S "running")).2.2.2
      (fun i _ => ⟨.jobj [(S "status", .jstr (S "running"))], S "running",
        rfl, by decide, rfl⟩)

/-! ### The shape of a successful pipeline run -/

/-- Whether the first task submission for the generated copy raised the
    distinguished sensitive-content error (the condition guarding the
    safety-rewrite branch of views.py lines 421-424). -/
def isSensitiveFirst (cfg : Config) (env : RunEnv) (kw : Str) : Bool :=
  match generateCopy cfg env.copyResp kw with
  | .ok c =>
    match submitVideoTask cfg env.submitResp0 c with
    | .error (.sensitive _) => true
    | _ => false
  | .error _ => false

lemma afterSubmit_ok_shape {cfg : Config} {cosEnv : CosEnv} {env : RunEnv}
    {kw copyText taskId : Str} {usedSafe : Bool} {r : PubResult}
    (h : afterSubmit cfg cosEnv env kw copyText taskId usedSafe = .ok r) :
    ∃ srcUrl cosUrl,
      uploadVideoToCos cfg cosEnv env.cosWorld env.dlResp srcUrl kw = .ok cosUrl ∧
      r = successResult cfg kw copyText taskId srcUrl cosUrl
        (headContentLength env.probe) usedSafe := by
  unfold afterSubmit at h
  cases hw : waitForVideoUrl cfg env.polls with
  | error e => rw [hw] at h; simp at h
  | ok srcUrl =>
    rw [hw] at h
    simp only [ok_bind] at h
    cases hu : uploadVideoToCos cfg cosEnv env.cosWorld env.dlResp srcUrl kw with
    | error e => rw [hu] at h; simp at h
    | ok cosUrl =>
      rw [hu] at h
      simp only [ok_bind, pure_eq_ok, Except.ok.injEq] at h
      exact ⟨srcUrl, cosUrl, hu, h.symm⟩

lemma runOneCore_ok_shape {cfg : Config} {cosEnv : CosEnv} {env : RunEnv}
    {kw : Str} {r : PubResult}
    (h : (runOneCore cfg cosEnv env kw).1 = .ok r) :
    ∃ copyText taskId srcUrl cosUrl,
      uploadVideoToCos cfg cosEnv env.cosWorld env.dlResp srcUrl kw = .ok cosUrl ∧
      r = successResult cfg kw copyText taskId srcUrl cosUrl
        (headContentLength env.probe) (isSensitiveFirst cfg env kw) := by
  unfold runOneCore at h
  cases hg : generateCopy cfg env.copyResp kw with
  | error e => rw [hg] at h; simp at h
  | ok c =>
    rw [hg] at h
    dsimp only at h
    cases hs0 : submitVideoTask cfg env.submitResp0 c with
    | ok tid =>
      rw [hs0] at h
      dsimp only at h
      have hisf : isSensitiveFirst cfg env kw = false := by
        unfold isSensitiveFirst
        rw [hg]
        dsimp only
        rw [hs0]
      obtain ⟨src, cos, hup, hr⟩ := afterSubmit_ok_shape h
      exact ⟨c, tid, src, cos, hup, by rw [hr, hisf]⟩
    | error e =>
      cases e with
      | sensitive m =>
        rw [hs0] at h
        dsimp only at h
        have hisf : isSensitiveFirst cfg env kw = true := by
          unfold isSensitiveFirst
          rw [hg]
          dsimp only
          rw [hs0]
        cases hrw : rewriteCopyForSafety cfg env.rewriteResp kw c with
        | error e2 => rw [hrw] at h; simp at h
        | ok c1 =>
          rw [hrw] at h
          dsimp only at h
          cases hs1 : submitVideoTask cfg env.submitResp1 c1 with
          | error e2 => rw [hs1] at h; simp at h
          | ok tid =>
            rw [hs1] at h
            dsimp only at h
            obtain ⟨src, cos, hup, hr⟩ := afterSubmit_ok_shape h
            exact ⟨c1, tid, src, cos, hup, by rw [hr, hisf]⟩
      | runtime m => rw [hs0] at h; simp at h
      | attrError => rw [hs0] at h; simp at h
      | indexError => rw [hs0] at h; simp at h
      | typeError => rw [hs0] at h; simp at h
      | jsonDecodeError => rw [hs0] at h; simp at h
      | netError m => rw [hs0] at h; simp at h

lemma runOneCore_count_le_one (cfg : Config) (cosEnv : CosEnv) (env : RunEnv)
    (kw : Str) : (runOneCore cfg cosEnv env kw).2 ≤ 1 := by
  unfold runOneCore
  cases hg : generateCopy cfg env.copyResp kw with
  | error e => simp
  | ok c =>
    dsimp only
    cases hs0 : submitVideoTask cfg env.submitResp0 c with
    | ok tid => simp
    | error e =>
      cases e with
      | sensitive m =>
        dsimp only
        cases hrw : rewriteCopyForSafety cfg env.rewriteResp kw c with
        | error e2 => simp
        | ok c1 =>
          dsimp only
          cases hs1 : submitVideoTask cfg env.submitResp1 c1 with
          | error e2 => simp
          | ok tid => simp
      | runtime m => simp
      | attrError => simp
      | indexError => simp
      | typeError => simp
      | jsonDecodeError => simp
      | netError m => simp

lemma runOne_success_shape {cfg : Config} {cosEnv : CosEnv} {env : RunEnv}
    {kw : Str} (herr : (runOne cfg cosEnv env kw).error = none) :
    ∃ copyText taskId srcUrl cosUrl,
      uploadVideoToCos cfg cosEnv env.cosWorld env.dlResp srcUrl (pyStrip kw) =
        .ok cosUrl ∧
      runOne cfg cosEnv env kw =
        successResult cfg (pyStrip kw) copyText taskId srcUrl cosUrl
          (headContentLength env.probe) (isSensitiveFirst cfg env (pyStrip kw)) := by
  by_cases h0 : pyStrip kw = []
  · exfalso
    simp [runOne, h0, errResult] at herr
  · have hb : (pyStrip kw).isEmpty = false := by
      cases hx : pyStrip kw with
      | nil => exact absurd hx h0
      | cons a t => rfl
    cases hc : (runOneCore cfg cosEnv env (pyStrip kw)).1 with
    | error e =>
      exfalso
      simp [runOne, hb, hc, errResult] at herr
    | ok r =>
      have hrun : runOne cfg cosEnv env kw = r := by simp [runOne, hb, hc]
      obtain ⟨ct, tid, src, cos, hup, hr⟩ := runOneCore_ok_shape hc
      exact ⟨ct, tid, src, cos, hup, by rw [hrun, hr]⟩

/-! ### C2: the safety retry bound -/

/-- C2: the safety-rewrite retry of `_generate_single_video` is taken at
    most once per keyword (the instrumented retry counter never exceeds
    1), and in a successful result `used_safe_fallback` is true exactly
    when the first submission raised `SensitiveContentError`. -/
theorem C2_safe_fallback_iff_retry (cfg : Config) (cosEnv : CosEnv)
    (env : RunEnv) (kw : Str) :
    (runOneCore cfg cosEnv env (pyStrip kw)).2 ≤ 1 ∧
    ((runOne cfg cosEnv env kw).error = none →
      ((runOne cfg cosEnv env kw).usedSafeFallback = some true ↔
        isSensitiveFirst cfg env (pyStrip kw) = true)) := by
  refine ⟨runOneCore_count_le_one cfg cosEnv env (pyStrip kw), ?_⟩
  intro herr
  obtain ⟨ct, tid, src, cos, hup, hr⟩ := runOne_success_shape herr
  rw [hr]
  simp [successResult]

/-- C2 witness: the scenario `envW` (sensitive first submission, rewrite,
    successful resubmission) reports `used_safe_fallback = true`, and the
    retry counter is at most 1. -/
theorem C2_witness :
    (runOneCore cfgW cosEnvNone envW (pyStrip (S "测试"))).2 ≤ 1 ∧
    ((runOne cfgW cosEnvNone envW (S "测试")).usedSafeFallback = some true ↔
      isSensitiveFirst cfgW envW (pyStrip (S "测试")) = true) :=
  ⟨(C2_safe_fallback_iff_retry cfgW cosEnvNone envW (S "测试")).1,
    (C2_safe_fallback_iff_retry cfgW cosEnvNone envW (S "测试")).2 (by decide)⟩

/-! ### C3: error conversion and field exclusivity -/

/-- All success-only fields of a result are populated. -/
def successFieldsSome (r : PubResult) : Prop :=
  r.videoTitle.isSome = true ∧ r.fileName.isSome = true ∧
  r.copyText.isSome = true ∧ r.taskId.isSome = true ∧
  r.videoUrl.isSome = true ∧ r.sourceVideoUrl.isSome = true ∧
  r.videoRatio.isSome = true ∧ r.videoResolution.isSome = true ∧
  r.videoFormat.isSome = true ∧ r.videoDuration.isSome = true ∧
  r.videoSizeBytes.isSome = true ∧ r.videoSizeHuman.isSome = true ∧
  r.storedOnCos.isSome = true ∧ r.usedSafeFallback.isSome = true

/-- No success-only field of a result is populated. -/
def successFieldsNone (r : PubResult) : Prop :=
  r.videoTitle = none ∧ r.fileName = none ∧ r.copyText = none ∧
  r.taskId = none ∧ r.videoUrl = none ∧ r.sourceVideoUrl = none ∧
  r.videoRatio = none ∧ r.videoResolution = none ∧ r.videoFormat = none ∧
  r.videoDuration = none ∧ r.videoSizeBytes = none ∧
  r.videoSizeHuman = none ∧ r.storedOnCos = none ∧ r.usedSafeFallback = none

/-- C3: `_generate_single_video` never lets an exception escape (the
    embedding is total: the outer `except Exception` absorbs every step
    failure, including a second `SensitiveContentError` raised by the
    retry submission), converts every escaping step exception into
    `{keyword, error: str(exc)}`, and each returned record populates
    exactly one of the success-field set and the error field. -/
theorem C3_run_one_error_conversion (cfg : Config) (cosEnv : CosEnv)
    (env : RunEnv) (kw : Str) :
    (pyStrip kw = [] →
      runOne cfg cosEnv env kw = errResult [] (S "关键词为空")) ∧
    (∀ e, pyStrip kw ≠ [] →
      (runOneCore cfg cosEnv env (pyStrip kw)).1 = .error e →
      runOne cfg cosEnv env kw = errResult (pyStrip kw) e.message) ∧
    ((∃ m, (runOne cfg cosEnv env kw).error = some m ∧
        successFieldsNone (runOne cfg cosEnv env kw)) ∨
      ((runOne cfg cosEnv env kw).error = none ∧
        successFieldsSome (runOne cfg cosEnv env kw))) := by
  refine ⟨?_, ?_, ?_⟩
  · intro h
    simp [runOne, h]
  · intro e hne h
    have hb : (pyStrip kw).isEmpty = false := by
      cases hx : pyStrip kw with
      | nil => exact absurd hx hne
      | cons a t => rfl
    simp [runOne, hb, h]
  · by_cases h0 : pyStrip kw = []
    · left
      refine ⟨S "关键词为空", ?_, ?_⟩ <;>
        simp [runOne, h0, errResult, successFieldsNone]
    · have hb : (pyStrip kw).isEmpty = false := by
        cases hx : pyStrip kw with
        | nil => exact absurd hx h0
        | cons a t => rfl
      cases hc : (runOneCore cfg cosEnv env (pyStrip kw)).1 with
      | error e =>
        left
        refine ⟨e.message, ?_, ?_⟩ <;>
          simp [runOne, hb, hc, errResult, successFieldsNone]
      | ok r =>
        right
        have hrun : runOne cfg cosEnv env kw = r := by simp [runOne, hb, hc]
        obtain ⟨ct, tid, src, cos, hup, hr⟩ := runOneCore_ok_shape hc
        rw [hrun, hr]
        refine ⟨?_, ?_⟩ <;> simp [successResult, successFieldsSome]

/-- C3 witness: a blank keyword, a keyword whose copy generation raises a
    transport error (converted to `{keyword, error}`), and the
    exclusivity disjunction at the successful scenario. -/
theorem C3_witness :
    runOne cfgW cosEnvNone envW (S " ") = errResult [] (S "关键词为空") ∧
    runOne cfgW cosEnvNone
        { envW with copyResp := .error (.netError (S "boom")) } (S "词") =
      errResult (S "词") (S "boom") ∧
    ((∃ m, (runOne cfgW cosEnvNone envW (S "测试")).error = some m ∧
        successFieldsNone (runOne cfgW cosEnvNone envW (S "测试"))) ∨
      ((runOne cfgW cosEnvNone envW (S "测试")).error = none ∧
        successFieldsSome (runOne cfgW cosEnvNone envW (S "测试")))) := by
  refine ⟨?_, ?_, ?_⟩
  · exact (C3_run_one_error_conversion cfgW cosEnvNone envW (S " ")).1 (by decide)
  · have h := (C3_run_one_error_conversion cfgW cosEnvNone
      { envW with copyResp := .error (.netError (S "boom")) } (S "词")).2.1
      (.netError (S "boom")) (by decide) (by rfl)
    simpa using h
  · exact (C3_run_one_error_conversion cfgW cosEnvNone envW (S "测试")).2.2

/-! ### C10: the hardcoded resolution -/

/-- The value at a field of a JSON-object payload. -/
def payloadField (p : JVal) (k : Str) : Option JVal :=
  match p with
  | .jobj fs => fs.lookup k
  | _ => none

lemma mkVideoResolution_ne_nil (raw : Str) : mkVideoResolution raw ≠ [] := by
  unfold mkVideoResolution
  cases hx : pyStrip raw with
  | nil => simp [hx]; decide
  | cons a t => simp [hx]

lemma payload_resolution_field (cfg : Config) (ct : Str)
    (h : cfg.videoResolution.isEmpty = false) :
    payloadField (submitPayload cfg ct) (S "resolution") =
      some (.jstr cfg.videoResolution) := by
  have k1 : ((S "resolution") == (S "model")) = false := by decide
  have k2 : ((S "resolution") == (S "content")) = false := by decide
  have k3 : ((S "resolution") == (S "ratio")) = false := by decide
  have k4 : ((S "resolution") == (S "duration")) = false := by decide
  have k5 : ((S "resolution") == (S "watermark")) = false := by decide
  have k6 : ((S "resolution") == (S "resolution")) = true := by decide
  simp [submitPayload, payloadField, h, List.lookup, k1, k2, k3, k4, k5, k6]

/-- C10: every successful result reports the literal "1080p" as its
    `video_resolution` regardless of the environment-configured
    `PUBLISH_VIDEO_RESOLUTION`, even though the configured value (always
    non-empty after module initialisation) is what the task-submission
    payload carries in its `resolution` field. -/
theorem C10_resolution_literal (raw : Str) (cfg : Config) (cosEnv : CosEnv)
    (env : RunEnv) (kw ct : Str) :
    ((runOne { cfg with videoResolution := mkVideoResolution raw }
        cosEnv env kw).error = none →
      (runOne { cfg with videoResolution := mkVideoResolution raw }
        cosEnv env kw).videoResolution = some (S "1080p")) ∧
    payloadField (submitPayload
        { cfg with videoResolution := mkVideoResolution raw } ct)
      (S "resolution") = some (.jstr (mkVideoResolution raw)) := by
  constructor
  · intro herr
    obtain ⟨ct2, tid, src, cos, hup, hr⟩ := runOne_success_shape herr
    rw [hr]
    simp [successResult]
  · have hne := mkVideoResolution_ne_nil raw
    have h : (mkVideoResolution raw).isEmpty = false := by
      cases hx : mkVideoResolution raw with
      | nil => exact absurd hx hne
      | cons a t => rfl
    exact payload_resolution_field _ ct h

/-- The witness configuration with `PUBLISH_VIDEO_RESOLUTION=720p`. -/
def cfg720 : Config := { cfgW with videoResolution := mkVideoResolution (S "720p") }

/-- C10 witness: with the environment configured to 720p, the successful
    scenario still reports "1080p" while the submission payload carries
    "720p". -/
theorem C10_witness :
    (runOne cfg720 cosEnvNone envW (S "测试")).videoResolution =
      some (S "1080p") ∧
    payloadField (submitPayload cfg720 (S "c")) (S "resolution") =
      some (.jstr (S "720p")) := by
  constructor
  · exact (C10_resolution_literal (S "720p") cfgW cosEnvNone envW (S "测试")
      (S "c")).1 (by decide)
  · have h := (C10_resolution_literal (S "720p") cfgW cosEnvNone envW (S "测试")
      (S "c")).2
    simpa using h

/-! ### C8: durable-storage soft fail -/

/-- Durable-storage credentials absent or backend misconfigured: some
    credential unset/blank, no bucket, or the SDK unavailable. -/
def credsAbsent (env : CosEnv) : Prop :=
  credPresent env.secretId = false ∨ credPresent env.secretKey = false ∨
  credPresent env.region = false ∨ credPresent env.bucket = false ∨
  env.sdkAvailable = false

lemma uploadFileToCos_none {env : CosEnv} (w : CosWorld) (key : Str)
    (h : credsAbsent env) : uploadFileToCos env w key = none := by
  unfold uploadFileToCos getClient
  rcases h with h | h | h | h | h <;> simp [h]

lemma uploadVideoToCos_creds_absent {cfg : Config} {cosEnv : CosEnv}
    (w : CosWorld) (dl : DownloadResp) (u kw : Str) (h : credsAbsent cosEnv) :
    uploadVideoToCos cfg cosEnv w (.ok dl) u kw = .ok [] := by
  unfold uploadVideoToCos
  by_cases hc : cfg.useCos = true
  · by_cases hs : dl.status = 200
    · simp [hc, hs, uploadFileToCos_none w _ h]
    · simp [hc, hs]
  · simp [hc]

lemma uploadVideoToCos_empty {cfg : Config} {cosEnv : CosEnv} {w : CosWorld}
    {dl : Except PyExc DownloadResp} {u kw c : Str} (h : credsAbsent cosEnv)
    (hok : uploadVideoToCos cfg cosEnv w dl u kw = .ok c) : c = [] := by
  cases hd : dl with
  | error e =>
    rw [hd] at hok
    by_cases hc : cfg.useCos = true
    · simp [uploadVideoToCos, hc] at hok
    · simp [uploadVideoToCos, hc] at hok
      exact hok
  | ok resp =>
    rw [hd] at hok
    rw [uploadVideoToCos_creds_absent w resp u kw h] at hok
    simp at hok
    exact hok

/-- C8: with durable-storage credentials absent or the backend
    misconfigured, `upload_file_to_cos` returns `None` without raising
    (both embeddings are total by construction, mirroring the source's
    blanket `except`), `_upload_video_to_cos` soft-fails to the empty
    string whenever the source-video download yields a response, and any
    successful `runOne` record then uses the provider source URL as the
    final video URL with `stored_on_cos = false`. -/
theorem C8_persist_soft_fail (cfg : Config) (cosEnv : CosEnv) (w : CosWorld)
    (env : RunEnv) (key u kw : Str) (dl : DownloadResp)
    (h : credsAbsent cosEnv) :
    uploadFileToCos cosEnv w key = none ∧
    uploadVideoToCos cfg cosEnv w (.ok dl) u kw = .ok [] ∧
    ((runOne cfg cosEnv env kw).error = none →
      (runOne cfg cosEnv env kw).videoUrl =
        (runOne cfg cosEnv env kw).sourceVideoUrl ∧
      (runOne cfg cosEnv env kw).storedOnCos = some false) := by
  refine ⟨uploadFileToCos_none w key h,
    uploadVideoToCos_creds_absent w dl u kw h, ?_⟩
  intro herr
  obtain ⟨ct, tid, src, cos, hup, hr⟩ := runOne_success_shape herr
  have hcos : cos = [] := uploadVideoToCos_empty h hup
  rw [hr, hcos]
  constructor <;> simp [successResult]

/-- The witness configuration with durable storage enabled. -/
def cfgCos : Config := { cfgW with useCos := true }

/-- The witness pipeline environment whose source download succeeds. -/
def envDl : RunEnv := { envW with dlResp := .ok { status := 200 } }

/-- C8 witness: with no credentials configured but durable storage
    enabled, the upload soft-fails and the successful run falls back to
    the source URL with `stored_on_cos = false`. -/
theorem C8_witness :
    uploadFileToCos cosEnvNone cosWorldW (S "k") = none ∧
    uploadVideoToCos cfgCos cosEnvNone cosWorldW (.ok { status := 200 })
      (S "u") (S "kw") = .ok [] ∧
    ((runOne cfgCos cosEnvNone envDl (S "测试")).videoUrl =
        (runOne cfgCos cosEnvNone envDl (S "测试")).sourceVideoUrl ∧
      (runOne cfgCos cosEnvNone envDl (S "测试")).storedOnCos = some false) := by
  have h := C8_persist_soft_fail cfgCos cosEnvNone cosWorldW envDl (S "k")
    (S "u") (S "测试") { status := 200 } (Or.inl rfl)
  exact ⟨h.1, h.2.1, h.2.2 (by decide)⟩

/-! ### C1: batch fan-out preserves input order -/

lemma setAll_getElem? (f : Nat → PubResult) (order : List Nat)
    (init : List (Option PubResult)) (j : Nat) :
    (setAll f order init)[j]? =
      if j ∈ order ∧ j < init.length then some (some (f j)) else init[j]? := by
  induction order generalizing init with
  | nil => simp [setAll]
  | cons i rest ih =>
    show (setAll f rest (init.set i (some (f i))))[j]? = _
    rw [ih]
    by_cases hjr : j ∈ rest
    · have hj1 : j ∈ i :: rest := List.mem_cons_of_mem _ hjr
      by_cases hlt : j < init.length
      · simp [hjr, hj1, List.length_set, hlt]
      · have h1 : (init.set i (some (f i)))[j]? = none :=
          List.getElem?_eq_none (by
            rw [List.length_set]
            exact Nat.le_of_not_lt hlt)
        have h2 : init[j]? = none := List.getElem?_eq_none (Nat.le_of_not_lt hlt)
        simp [hjr, hj1, List.length_set, hlt, h1, h2]
    · by_cases hji : j = i
      · subst hji
        have hset : (init.set j (some (f j)))[j]? =
            if j < init.length then some (some (f j)) else none := by
          by_cases hlt : j < init.length
          · simp [hlt, List.getElem?_set_self hlt]
          · have hle : (init.set j (some (f j))).length ≤ j := by
              rw [List.length_set]
              exact Nat.le_of_not_lt hlt
            simp [hlt, List.getElem?_eq_none hle]
        rw [if_neg (by simp [hjr]), hset]
        by_cases hlt : j < init.length
        · simp [hlt, List.mem_cons]
        · simp [hlt, List.mem_cons,
            List.getElem?_eq_none (Nat.le_of_not_lt hlt)]
      · have hset : (init.set i (some (f i)))[j]? = init[j]? :=
          List.getElem?_set_ne (Ne.symm hji)
        simp [hjr, hji, List.length_set, hset, List.mem_cons]

lemma setAll_perm_eq (f : Nat → PubResult) (order : List Nat) (n : Nat)
    (hperm : order.Perm (List.range n)) :
    setAll f order (List.replicate n none) =
      (List.range n).map (fun i => some (f i)) := by
  apply List.ext_getElem?
  intro j
  rw [setAll_getElem?]
  have hmem : j ∈ order ↔ j < n := by rw [hperm.mem_iff, List.mem_range]
  by_cases hj : j < n
  · simp [hmem, hj, List.getElem?_map, List.getElem?_range hj]
  · have h1 : (List.replicate n (none : Option PubResult))[j]? = none := by
      apply List.getElem?_eq_none
      simpa using Nat.le_of_not_lt hj
    have h2 : (((List.range n).map (fun i => some (f i))))[j]? = none := by
      apply List.getElem?_eq_none
      simpa using Nat.le_of_not_lt hj
    simp [hmem, hj, h1, h2]

/-- C1: for every supplied keyword list whose normalisation (trimming,
    blank-dropping, deduplication) is non-empty, and every completion
    order of the worker futures (a permutation of the slot indices),
    `auto_publish` returns a results list exactly aligned with the
    truncated normalised keyword list: the entry at index i is the result
    produced for the keyword at index i, regardless of completion order. -/
theorem C1_batch_preserves_input_order (cfg : Config) (cosEnv : CosEnv)
    (envs : Nat → RunEnv) (hot : Except PyExc Str) (raw : List Str)
    (order : List Nat) (hne : normalizeKeywords raw ≠ [])
    (hperm : order.Perm (List.range
      ((normalizeKeywords raw).take cfg.maxKeywordsPerBatch).length)) :
    autoPublishResults cfg cosEnv envs hot raw order =
      .ok ((List.range
          ((normalizeKeywords raw).take cfg.maxKeywordsPerBatch).length).map
        (fun i => some (runOne cfg cosEnv (envs i)
          (((normalizeKeywords raw).take cfg.maxKeywordsPerBatch).getD i [])))) := by
  have hb : (normalizeKeywords raw).isEmpty = false := by
    cases hx : normalizeKeywords raw with
    | nil => exact absurd hx hne
    | cons a t => rfl
  simp only [autoPublishResults, hb, Bool.false_eq_true, if_false]
  exact congrArg Except.ok (setAll_perm_eq _ _ _ hperm)

/-- C1 witness: two keywords whose futures complete in reverse order
    still produce results aligned with the input order. -/
theorem C1_witness :
    autoPublishResults cfgW cosEnvNone (fun _ => envW)
      (.error (.runtime (S "x"))) [S "a", S "b"] [1, 0] =
      .ok [some (runOne cfgW cosEnvNone envW (S "a")),
        some (runOne cfgW cosEnvNone envW (S "b"))] := by
  have h := C1_batch_preserves_input_order cfgW cosEnvNone (fun _ => envW)
    (.error (.runtime (S "x"))) [S "a", S "b"] [1, 0] (by decide) (by decide)
  exact h.trans rfl
